import Mathlib

/-!
Shallow embedding of the WaveNet signaling backend (src/server.js, with the
persisted call-log schema from src/unnamed/part_000).  The presence registry
`onlineUsers` is a JS `Map` from userId to `{ socketId, userInfo }`, modelled
as an association list with Map semantics (set overwrites in place, delete
removes the key, keys stay unique).  The call-log collection is modelled as a
list of records; `CallLog.findByIdAndUpdate` maps the update over the entry
with the matching id (mongoose treats an `undefined` id as matching nothing).
Socket emissions are recorded as an output list of messages.  Time is an
explicit `Nat` parameter standing for `new Date()` at the moment a handler
runs.
-/

namespace WaveNet

/-- Profile info stored in the presence registry (`userInfo` in the source:
the call-user handler reads `.name` and `.imageUrl` from it). -/
structure Profile where
  name : String
  imageUrl : String
deriving DecidableEq, Repr

/-- One presence-registry entry: `{ socketId: socket.id, userInfo }`. -/
structure PresEntry where
  socketId : String
  userInfo : Profile
deriving DecidableEq, Repr

/-- The `onlineUsers` map, userId -> entry, as an insertion-ordered
association list (JS `Map` semantics). -/
abbrev Registry := List (String × PresEntry)

/-- JS `Map.prototype.set`: overwrite in place if the key exists, else append. -/
def mapSet (m : Registry) (k : String) (v : PresEntry) : Registry :=
  if m.any (fun p => p.1 = k) then
    m.map (fun p => if p.1 = k then (k, v) else p)
  else
    m ++ [(k, v)]

/-- JS `Map.prototype.get`. -/
def mapGet (m : Registry) (k : String) : Option PresEntry :=
  (m.find? (fun p => p.1 = k)).map (fun p => p.2)

/-- JS `Map.prototype.delete`. -/
def mapDelete (m : Registry) (k : String) : Registry :=
  m.filter (fun p => p.1 ≠ k)

/-- `Map.get` applied to a possibly-missing key (a destructured payload field
that may be `undefined`; no stored key is `undefined`, so lookup misses). -/
def mapGetOpt (m : Registry) (k : Option String) : Option PresEntry :=
  k.bind (mapGet m)

/-- The `callType` enum of the CallLog schema. -/
inductive CallType
  | audio
  | video
deriving DecidableEq, Repr

/-- The `status` enum of the CallLog schema: exactly
`[accepted, rejected, missed, canceled]`, default `missed`. -/
inductive CallStatus
  | accepted
  | rejected
  | missed
  | canceled
deriving DecidableEq, Repr

/-- A persisted call-log document (src/unnamed/part_000). `id` is the
Mongo-assigned `_id`; timestamps are Nat instants. -/
structure CallLog where
  id : Nat
  callerId : String
  callerName : String
  callerAvatar : Option String
  receiverId : String
  receiverName : String
  receiverAvatar : Option String
  callType : CallType
  startTime : Nat
  endTime : Option Nat
  status : CallStatus
deriving DecidableEq, Repr

/-- A stored User document, restricted to the fields the socket handlers
read (`clerkId`, `friends`). -/
structure UserRec where
  clerkId : String
  friends : List String
deriving DecidableEq, Repr

/-- The `caller` object of a call-user payload (`caller.id`, `caller.name`,
`caller.avatar`). -/
structure Caller where
  id : String
  name : String
  avatar : Option String
deriving DecidableEq, Repr

/-- Mutable server state touched by the socket handlers: the presence map,
the call-log collection, and the next Mongo id to assign. -/
structure ServerState where
  onlineUsers : Registry
  callLogs : List CallLog
  nextId : Nat
deriving DecidableEq, Repr

/-- The state at process start: empty registry, empty log collection. -/
def initialState : ServerState := ⟨[], [], 0⟩

/-- An outbound socket emission. `broadcastOnline` is an `io.emit` of the
online-users event
(to everyone); the rest are `io.to(socketId).emit(...)` except `callError`,
which is a `socket.emit` of call-error back to the sender only. -/
inductive Msg
  | broadcastOnline (userIds : List String)
  | callError (message : String)
  | incomingCall (toSocket : String) (caller : Caller) (callType : CallType) (callId : Nat)
  | callAcceptedMsg (toSocket : String)
  | callRejectedMsg (toSocket : String)
  | callCancelledMsg (toSocket : String)
  | endCallMsg (toSocket : String)
deriving DecidableEq, Repr

/-- The roster broadcast of src/server.js:
an `io.emit` of `Array.from(onlineUsers.keys())` — the keys of the
map, used identically by the user-online and disconnect handlers. -/
def rosterBroadcast (reg : Registry) : Msg :=
  Msg.broadcastOnline (reg.map (fun p => p.1))

/-- Modelled from the spec (not the source), for comparison with
`rosterBroadcast`: the spec says the roster broadcast is "the updated set of
\x7buserId, profile\x7d pairs" of all registered users. -/
def rosterPairsSpec (reg : Registry) : List (String × Profile) :=
  reg.map (fun p => (p.1, p.2.userInfo))

/-- `CallLog.findByIdAndUpdate(callId, upd)`: updates the document whose id
matches; an absent (`undefined`) or unknown id matches nothing. -/
def findByIdAndUpdate (logs : List CallLog) (callId : Option Nat)
    (upd : CallLog → CallLog) : List CallLog :=
  match callId with
  | none => logs
  | some i => logs.map (fun l => if l.id = i then upd l else l)

/-- The user-online handler: store the entry, broadcast the roster. -/
def userOnline (sock : String) (userId : String) (userInfo : Profile)
    (st : ServerState) : ServerState × List Msg :=
  let reg := mapSet st.onlineUsers userId ⟨sock, userInfo⟩
  ({ st with onlineUsers := reg }, [rosterBroadcast reg])

/-- The call-user handler (src/server.js lines 145-177).  It first looks the
receiver up in the User collection; a missing receiver or non-friend caller
gets a call-error.  Accessing `caller.id` when the payload carries no caller
object throws a TypeError, modelled as `Except.error`.  If the receiver is
online, a log with default status `missed` is saved and `incoming-call`
is emitted to the receiver; otherwise the sender gets a call-error. -/
def callUser (users : List UserRec) (caller : Option Caller)
    (receiverId : String) (callType : CallType) (now : Nat)
    (st : ServerState) : Except String (ServerState × List Msg) :=
  match users.find? (fun u => u.clerkId = receiverId) with
  | none => Except.ok (st, [Msg.callError "You can only call friends."])
  | some receiverUser =>
    match caller with
    | none => Except.error "TypeError"
    | some c =>
      if ¬ receiverUser.friends.contains c.id then
        Except.ok (st, [Msg.callError "You can only call friends."])
      else
        match mapGet st.onlineUsers receiverId with
        | some receiverData =>
            let log : CallLog :=
              { id := st.nextId
                callerId := c.id
                callerName := c.name
                callerAvatar := c.avatar
                receiverId := receiverId
                receiverName := receiverData.userInfo.name
                receiverAvatar := some receiverData.userInfo.imageUrl
                callType := callType
                startTime := now
                endTime := none
                status := CallStatus.missed }
            Except.ok
              ({ st with callLogs := st.callLogs ++ [log], nextId := st.nextId + 1 },
               [Msg.incomingCall receiverData.socketId c callType log.id])
        | none => Except.ok (st, [Msg.callError "User is offline"])

/-- The call-accepted handler: unconditionally sets status `accepted` and
resets `startTime` to now on the log with the given id, then notifies the
caller when online. -/
def callAccepted (callerId : Option String) (callId : Option Nat) (now : Nat)
    (st : ServerState) : ServerState × List Msg :=
  let logs := findByIdAndUpdate st.callLogs callId
    (fun l => { l with status := CallStatus.accepted, startTime := now })
  let msgs := match mapGetOpt st.onlineUsers callerId with
    | some callerData => [Msg.callAcceptedMsg callerData.socketId]
    | none => []
  ({ st with callLogs := logs }, msgs)

/-- The call-rejected handler: sets status `rejected` and stamps `endTime`,
then notifies the caller when online. -/
def callRejected (callerId : Option String) (callId : Option Nat) (now : Nat)
    (st : ServerState) : ServerState × List Msg :=
  let logs := findByIdAndUpdate st.callLogs callId
    (fun l => { l with status := CallStatus.rejected, endTime := some now })
  let msgs := match mapGetOpt st.onlineUsers callerId with
    | some callerData => [Msg.callRejectedMsg callerData.socketId]
    | none => []
  ({ st with callLogs := logs }, msgs)

/-- The cancel-call handler: sets status `canceled` and stamps `endTime`,
then notifies the receiver when online. -/
def cancelCall (receiverId : Option String) (callId : Option Nat) (now : Nat)
    (st : ServerState) : ServerState × List Msg :=
  let logs := findByIdAndUpdate st.callLogs callId
    (fun l => { l with status := CallStatus.canceled, endTime := some now })
  let msgs := match mapGetOpt st.onlineUsers receiverId with
    | some receiverData => [Msg.callCancelledMsg receiverData.socketId]
    | none => []
  ({ st with callLogs := logs }, msgs)

/-- The end-call handler: only when a callId is present, stamp `endTime`
(the status field is not touched); then notify the target when online. -/
def endCall (targetId : Option String) (callId : Option Nat) (now : Nat)
    (st : ServerState) : ServerState × List Msg :=
  let logs :=
    if callId.isSome then
      findByIdAndUpdate st.callLogs callId (fun l => { l with endTime := some now })
    else st.callLogs
  let msgs := match mapGetOpt st.onlineUsers targetId with
    | some target => [Msg.endCallMsg target.socketId]
    | none => []
  ({ st with callLogs := logs }, msgs)

/-- The disconnect handler: scan the map in order for the first entry whose
socketId matches, delete that key and broadcast the roster, then break; if
none matches, do nothing. -/
def disconnect (sock : String) (st : ServerState) : ServerState × List Msg :=
  match st.onlineUsers.find? (fun p => p.2.socketId = sock) with
  | some p =>
      let reg := mapDelete st.onlineUsers p.1
      ({ st with onlineUsers := reg }, [rosterBroadcast reg])
  | none => (st, [])

/-- A presence-affecting event: a user-online announcement or a transport
close. -/
inductive PresEvent
  | online (sock : String) (userId : String) (userInfo : Profile)
  | close (sock : String)
deriving DecidableEq, Repr

/-- Apply one presence event through the corresponding handler. -/
def presApply (st : ServerState) : PresEvent → ServerState
  | PresEvent.online s u p => (userOnline s u p st).1
  | PresEvent.close s => (disconnect s st).1

/-- Run a sequence of presence events from a starting state. -/
def presRun (st : ServerState) (evs : List PresEvent) : ServerState :=
  evs.foldl presApply st

/-- Whether a log involves a user as caller or receiver (the `$or` filter of
the history route). -/
def involves (userId : String) (l : CallLog) : Bool :=
  l.callerId = userId ∨ l.receiverId = userId

/-- Newest-first order on logs: sort key `startTime` descending. -/
def newestFirst (a b : CallLog) : Prop :=
  b.startTime ≤ a.startTime

instance : DecidableRel newestFirst := fun a b =>
  inferInstanceAs (Decidable (b.startTime ≤ a.startTime))

instance : IsTotal CallLog newestFirst :=
  ⟨fun a b => (le_total b.startTime a.startTime).imp (fun h => h) (fun h => h)⟩

instance : IsTrans CallLog newestFirst :=
  ⟨fun _ _ _ h1 h2 => le_trans h2 h1⟩

/-- The history route (src/server.js lines 121-127): the logs where the user
is caller or receiver, sorted by `startTime` descending, limited to 50. -/
def getHistory (logs : List CallLog) (userId : String) : List CallLog :=
  ((logs.filter (involves userId)).insertionSort newestFirst).take 50

/-- The userIds currently held by a registry. -/
def regKeys (reg : Registry) : List String :=
  reg.map (fun p => p.1)

lemma regKeys_mapSet_nodup (m : Registry) (k : String) (v : PresEntry)
    (h : (regKeys m).Nodup) : (regKeys (mapSet m k v)).Nodup := by
  unfold mapSet
  by_cases hk : m.any (fun p => p.1 = k)
  · simp only [hk, if_true]
    have heq : regKeys (m.map (fun p => if p.1 = k then (k, v) else p)) = regKeys m := by
      unfold regKeys
      rw [List.map_map]
      refine List.map_congr_left (fun p _ => ?_)
      by_cases hp : p.1 = k
      · simp [hp]
      · simp [hp]
    rw [heq]; exact h
  · rw [if_neg hk]
    have hnot : k ∉ regKeys m := by
      intro hmem
      apply hk
      rw [List.any_eq_true]
      obtain ⟨p, hp, hpk⟩ := List.mem_map.mp hmem
      exact ⟨p, hp, by simp [hpk]⟩
    unfold regKeys
    rw [List.map_append]
    simp only [List.map_cons, List.map_nil]
    simp [List.nodup_append, h, hnot]
    refine ⟨h, fun x hx => hnot (List.mem_map.mpr ⟨(k, x), hx, rfl⟩)⟩

lemma regKeys_mapDelete_nodup (m : Registry) (k : String)
    (h : (regKeys m).Nodup) : (regKeys (mapDelete m k)).Nodup := by
  unfold regKeys mapDelete
  exact h.sublist ((List.filter_sublist m).map (fun p => p.1))

lemma presApply_nodup (st : ServerState) (ev : PresEvent)
    (h : (regKeys st.onlineUsers).Nodup) :
    (regKeys (presApply st ev).onlineUsers).Nodup := by
  cases ev with
  | online s u p => exact regKeys_mapSet_nodup _ _ _ h
  | close s =>
      unfold presApply disconnect
      cases hf : st.onlineUsers.find? (fun p => p.2.socketId = s) with
      | none => simp only [hf]; exact h
      | some p => simp only [hf]; exact regKeys_mapDelete_nodup _ _ h

lemma presRun_nodup (evs : List PresEvent) :
    ∀ st : ServerState, (regKeys st.onlineUsers).Nodup →
      (regKeys (presRun st evs).onlineUsers).Nodup := by
  induction evs with
  | nil => intro st h; simpa [presRun] using h
  | cons ev evs ih =>
      intro st h
      have : presRun st (ev :: evs) = presRun (presApply st ev) evs := rfl
      rw [this]
      exact ih _ (presApply_nodup st ev h)

/-- Claim C6: for every sequence of user-online registrations and transport
closes starting from the empty registry, the presence registry never holds
two entries with the same userId at the same time (its key list is
duplicate-free after every such sequence, hence after every prefix). -/
theorem C6_registry_keys_unique (evs : List PresEvent) :
    (regKeys (presRun initialState evs).onlineUsers).Nodup :=
  presRun_nodup evs initialState (by simp [initialState, regKeys])

/-- Claim C2: when the callee is absent from the presence registry, the
call-user handler returns without throwing, leaves the whole server state
(in particular the call-log ledger) unchanged, and emits exactly one
call-error message, which goes to the sender only. -/
theorem C2_offline_callee_error_no_log (users : List UserRec) (c : Caller)
    (receiverId : String) (ct : CallType) (t : Nat) (st : ServerState)
    (habs : mapGet st.onlineUsers receiverId = none) :
    ∃ m, callUser users (some c) receiverId ct t st =
      Except.ok (st, [Msg.callError m]) := by
  unfold callUser
  cases hf : users.find? (fun u => u.clerkId = receiverId) with
  | none => exact ⟨"You can only call friends.", rfl⟩
  | some ru =>
      dsimp only
      by_cases hfr : ru.friends.contains c.id = true
      · rw [if_neg (not_not_intro hfr), habs]
        exact ⟨"User is offline", rfl⟩
      · rw [if_pos hfr]
        exact ⟨"You can only call friends.", rfl⟩

/-- Witness for C2 at a concrete input: user B is registered in the user
store with A as a friend but is not online. -/
theorem C2_offline_callee_error_no_log_witness :
    ∃ m, callUser [⟨"B", ["A"]⟩] (some ⟨"A", "Alice", none⟩) "B"
        CallType.audio 3 initialState =
      Except.ok (initialState, [Msg.callError m]) :=
  C2_offline_callee_error_no_log [⟨"B", ["A"]⟩] ⟨"A", "Alice", none⟩ "B"
    CallType.audio 3 initialState rfl

/-- Claim C8: the history query returns only logs in which the user is the
caller or the receiver, sorted newest first (startTime descending), at most
50 of them, and — whenever at most 50 logs involve the user — exactly the
logs involving the user. -/
theorem C8_history_filter_sort_limit (logs : List CallLog) (uid : String) :
    (∀ l ∈ getHistory logs uid, l.callerId = uid ∨ l.receiverId = uid)
    ∧ List.Sorted newestFirst (getHistory logs uid)
    ∧ (getHistory logs uid).length ≤ 50
    ∧ ((logs.filter (involves uid)).length ≤ 50 →
        List.Perm (getHistory logs uid) (logs.filter (involves uid))) := by
  refine ⟨?_, ?_, ?_, ?_⟩
  · intro l hl
    have h1 : l ∈ (logs.filter (involves uid)).insertionSort newestFirst :=
      List.mem_of_mem_take hl
    have h2 : l ∈ logs.filter (involves uid) :=
      (List.perm_insertionSort newestFirst _).mem_iff.mp h1
    have h3 := (List.mem_filter.mp h2).2
    simpa [involves] using h3
  · exact (List.sorted_insertionSort newestFirst _).sublist (List.take_sublist _ _)
  · exact List.length_take_le _ _
  · intro hlen
    unfold getHistory
    rw [List.take_of_length_le (by rw [List.length_insertionSort]; exact hlen)]
    exact List.perm_insertionSort newestFirst _

/-- Witness for C8 at a concrete input: two logs involving user A (length
below the limit), checked through the theorem. -/
theorem C8_history_filter_sort_limit_witness :
    List.Perm
      (getHistory
        [{ id := 0, callerId := "A", callerName := "Alice", callerAvatar := none,
           receiverId := "B", receiverName := "Bob", receiverAvatar := none,
           callType := CallType.audio, startTime := 1, endTime := none,
           status := CallStatus.missed },
         { id := 1, callerId := "C", callerName := "Carol", callerAvatar := none,
           receiverId := "A", receiverName := "Alice", receiverAvatar := none,
           callType := CallType.video, startTime := 4, endTime := none,
           status := CallStatus.missed }] "A")
      (List.filter (involves "A")
        [{ id := 0, callerId := "A", callerName := "Alice", callerAvatar := none,
           receiverId := "B", receiverName := "Bob", receiverAvatar := none,
           callType := CallType.audio, startTime := 1, endTime := none,
           status := CallStatus.missed },
         { id := 1, callerId := "C", callerName := "Carol", callerAvatar := none,
           receiverId := "A", receiverName := "Alice", receiverAvatar := none,
           callType := CallType.video, startTime := 4, endTime := none,
           status := CallStatus.missed }]) :=
  (C8_history_filter_sort_limit _ "A").2.2.2 (by decide)

/-- Claim C5: a call-accepted event on a pending session (a freshly created
log, status still at the creation default) stores it with status accepted
and with startTime reset to the acceptance instant, which — the event clock
being strictly monotone, `hclock` — is strictly later than the creation
time, so the elapsed ring time is discarded. -/
theorem C5_accept_resets_start_clock (st : ServerState) (cid : Option String)
    (i t : Nat) (l : CallLog) (hl : l ∈ st.callLogs) (hid : l.id = i)
    (_hfresh : l.status = CallStatus.missed) (_hnoend : l.endTime = none)
    (hclock : l.startTime < t) :
    { l with status := CallStatus.accepted, startTime := t }
      ∈ (callAccepted cid (some i) t st).1.callLogs
    ∧ ({ l with status := CallStatus.accepted, startTime := t }).status
        = CallStatus.accepted
    ∧ ({ l with status := CallStatus.accepted, startTime := t }).startTime = t
    ∧ l.startTime
        < ({ l with status := CallStatus.accepted, startTime := t }).startTime := by
  refine ⟨?_, rfl, rfl, hclock⟩
  unfold callAccepted findByIdAndUpdate
  simp only
  refine List.mem_map.mpr ⟨l, hl, ?_⟩
  rw [if_pos hid]

/-- Witness for C5 at a concrete input: a fresh pending log with creation
time 2, accepted at time 5. -/
theorem C5_accept_resets_start_clock_witness :
    ({ id := 0, callerId := "A", callerName := "Alice", callerAvatar := none,
       receiverId := "B", receiverName := "Bob", receiverAvatar := none,
       callType := CallType.audio, startTime := 5, endTime := none,
       status := CallStatus.accepted : CallLog })
      ∈ (callAccepted (some "A") (some 0) 5
          ⟨[], [{ id := 0, callerId := "A", callerName := "Alice",
                  callerAvatar := none, receiverId := "B",
                  receiverName := "Bob", receiverAvatar := none,
                  callType := CallType.audio, startTime := 2, endTime := none,
                  status := CallStatus.missed }], 1⟩).1.callLogs :=
  (C5_accept_resets_start_clock
    ⟨[], [{ id := 0, callerId := "A", callerName := "Alice", callerAvatar := none,
            receiverId := "B", receiverName := "Bob", receiverAvatar := none,
            callType := CallType.audio, startTime := 2, endTime := none,
            status := CallStatus.missed }], 1⟩
    (some "A") 0 5
    { id := 0, callerId := "A", callerName := "Alice", callerAvatar := none,
      receiverId := "B", receiverName := "Bob", receiverAvatar := none,
      callType := CallType.audio, startTime := 2, endTime := none,
      status := CallStatus.missed }
    (by decide) rfl rfl rfl (by decide)).1

lemma mapGet_mapDelete_self (m : Registry) (k : String) :
    mapGet (mapDelete m k) k = none := by
  unfold mapGet mapDelete
  rw [List.find?_eq_none.mpr]
  · rfl
  intro p hp
  have := (List.mem_filter.mp hp).2
  simpa using this

/-- Claim C7: on transport close, if no registry entry has a socketId matching the
closed connection the disconnect handler is a silent no-op (state unchanged,
nothing emitted); if the scan finds a matching entry, its userId is deleted
from the registry (a lookup for it now misses) and the same roster broadcast
that the user-online handler sends is emitted for the updated registry. -/
theorem C7_disconnect_remove_or_noop (sock : String) (st : ServerState) :
    ((∀ p ∈ st.onlineUsers, p.2.socketId ≠ sock) → disconnect sock st = (st, []))
    ∧ (∀ p, st.onlineUsers.find? (fun q => q.2.socketId = sock) = some p →
        (disconnect sock st).1.onlineUsers = mapDelete st.onlineUsers p.1
        ∧ mapGet (disconnect sock st).1.onlineUsers p.1 = none
        ∧ (disconnect sock st).2
            = [rosterBroadcast (disconnect sock st).1.onlineUsers]) := by
  constructor
  · intro hnone
    have hf : st.onlineUsers.find? (fun q => q.2.socketId = sock) = none :=
      List.find?_eq_none.mpr (fun p hp => by simpa using hnone p hp)
    unfold disconnect
    rw [hf]
  · intro p hf
    unfold disconnect
    rw [hf]
    exact ⟨rfl, mapGet_mapDelete_self _ _, rfl⟩

/-- Witness for C7 at concrete inputs: closing a socket that is not in the
registry changes nothing, and closing the socket of a registered user
removes that user and broadcasts the remaining roster. -/
theorem C7_disconnect_remove_or_noop_witness :
    disconnect "s9" ⟨[("u1", ⟨"s1", ⟨"Alice", "a.png"⟩⟩)], [], 0⟩
      = (⟨[("u1", ⟨"s1", ⟨"Alice", "a.png"⟩⟩)], [], 0⟩, [])
    ∧ mapGet (disconnect "s1"
        ⟨[("u1", ⟨"s1", ⟨"Alice", "a.png"⟩⟩)], [], 0⟩).1.onlineUsers "u1" = none :=
  ⟨(C7_disconnect_remove_or_noop "s9"
      ⟨[("u1", ⟨"s1", ⟨"Alice", "a.png"⟩⟩)], [], 0⟩).1 (by decide),
   ((C7_disconnect_remove_or_noop "s1"
      ⟨[("u1", ⟨"s1", ⟨"Alice", "a.png"⟩⟩)], [], 0⟩).2
      ("u1", ⟨"s1", ⟨"Alice", "a.png"⟩⟩) (by decide)).2.1⟩

/-- Claim C10: an end-call event with no callId leaves the whole server
state — in particular the call log — unchanged, yet the end-call
notification is still forwarded to the named target exactly when that
target is present in the registry. -/
theorem C10_end_without_callId_forwards (tid : Option String) (t : Nat)
    (st : ServerState) :
    (endCall tid none t st).1 = st
    ∧ (∀ e, mapGetOpt st.onlineUsers tid = some e →
        (endCall tid none t st).2 = [Msg.endCallMsg e.socketId])
    ∧ (mapGetOpt st.onlineUsers tid = none → (endCall tid none t st).2 = []) := by
  refine ⟨rfl, ?_, ?_⟩
  · intro e he
    unfold endCall
    rw [he]
  · intro he
    unfold endCall
    rw [he]

/-- Witness for C10 at concrete inputs: with user B online, an end-call event
without a callId still notifies the socket of B; with the target offline, nothing
is sent; the log collection is untouched in both cases. -/
theorem C10_end_without_callId_forwards_witness :
    (endCall (some "B") none 9
        ⟨[("B", ⟨"s2", ⟨"Bob", "b.png"⟩⟩)], [], 0⟩).2 = [Msg.endCallMsg "s2"]
    ∧ (endCall (some "B") none 9 initialState).2 = [] :=
  ⟨((C10_end_without_callId_forwards (some "B") 9
      ⟨[("B", ⟨"s2", ⟨"Bob", "b.png"⟩⟩)], [], 0⟩).2.1
      ⟨"s2", ⟨"Bob", "b.png"⟩⟩ (by decide)),
   (C10_end_without_callId_forwards (some "B") 9 initialState).2.2 (by decide)⟩

/-- Modelled from the spec (not the source), for comparison: the spec calls
rejected, canceled, and missed (and an `ended` value the persisted schema
does not contain) the terminal statuses; `accepted` is the active state. -/
def specTerminalStatuses : List CallStatus :=
  [CallStatus.rejected, CallStatus.missed, CallStatus.canceled]

/-- Counterexample to claim C1: a session already in the terminal state
rejected (resolved at time 2) is overwritten by a later call-accepted event
for the same id — its status becomes accepted and its start clock is
restamped, so the state does not stay unchanged. -/
theorem C1_counterexample_accept_overwrites_terminal :
    (callAccepted (some "A") (some 0) 5
        ⟨[], [{ id := 0, callerId := "A", callerName := "Alice",
                callerAvatar := none, receiverId := "B", receiverName := "Bob",
                receiverAvatar := none, callType := CallType.audio,
                startTime := 1, endTime := some 2,
                status := CallStatus.rejected }], 1⟩).1.callLogs
      = [{ id := 0, callerId := "A", callerName := "Alice",
           callerAvatar := none, receiverId := "B", receiverName := "Bob",
           receiverAvatar := none, callType := CallType.audio,
           startTime := 5, endTime := some 2,
           status := CallStatus.accepted }]
    ∧ CallStatus.rejected ∈ specTerminalStatuses
    ∧ CallStatus.accepted ≠ CallStatus.rejected :=
  ⟨rfl, by decide, by decide⟩

/-- Claim C1 as amended: lifecycle events on a session already in a terminal
state are unconditional overwrites (last event wins): a later accept stores
it as accepted with the start clock restamped, a later reject stores it as
rejected, a later cancel as canceled (each stamping endTime), and a later
end keeps the status but restamps endTime. -/
theorem C1_amended_terminal_overwritten (st : ServerState)
    (cid rid tid : Option String) (i t : Nat) (l : CallLog)
    (hl : l ∈ st.callLogs) (hid : l.id = i)
    (_hterm : l.status ∈ specTerminalStatuses) :
    { l with status := CallStatus.accepted, startTime := t }
      ∈ (callAccepted cid (some i) t st).1.callLogs
    ∧ { l with status := CallStatus.rejected, endTime := some t }
      ∈ (callRejected cid (some i) t st).1.callLogs
    ∧ { l with status := CallStatus.canceled, endTime := some t }
      ∈ (cancelCall rid (some i) t st).1.callLogs
    ∧ { l with endTime := some t }
      ∈ (endCall tid (some i) t st).1.callLogs := by
  refine ⟨?_, ?_, ?_, ?_⟩
  · unfold callAccepted findByIdAndUpdate
    exact List.mem_map.mpr ⟨l, hl, by rw [if_pos hid]⟩
  · unfold callRejected findByIdAndUpdate
    exact List.mem_map.mpr ⟨l, hl, by rw [if_pos hid]⟩
  · unfold cancelCall findByIdAndUpdate
    exact List.mem_map.mpr ⟨l, hl, by rw [if_pos hid]⟩
  · unfold endCall findByIdAndUpdate
    exact List.mem_map.mpr ⟨l, hl, by rw [if_pos hid]⟩

/-- Witness for the amended C1 at a concrete input: a canceled session is
stored as accepted again by a later accept event. -/
theorem C1_amended_terminal_overwritten_witness :
    { id := 3, callerId := "A", callerName := "Alice", callerAvatar := none,
      receiverId := "B", receiverName := "Bob", receiverAvatar := none,
      callType := CallType.video, startTime := 8, endTime := some 2,
      status := CallStatus.accepted : CallLog }
      ∈ (callAccepted (some "A") (some 3) 8
          ⟨[], [{ id := 3, callerId := "A", callerName := "Alice",
                  callerAvatar := none, receiverId := "B",
                  receiverName := "Bob", receiverAvatar := none,
                  callType := CallType.video, startTime := 1,
                  endTime := some 2, status := CallStatus.canceled }],
            4⟩).1.callLogs :=
  (C1_amended_terminal_overwritten
    ⟨[], [{ id := 3, callerId := "A", callerName := "Alice",
            callerAvatar := none, receiverId := "B", receiverName := "Bob",
            receiverAvatar := none, callType := CallType.video,
            startTime := 1, endTime := some 2,
            status := CallStatus.canceled }], 4⟩
    (some "A") (some "B") (some "B") 3 8
    { id := 3, callerId := "A", callerName := "Alice", callerAvatar := none,
      receiverId := "B", receiverName := "Bob", receiverAvatar := none,
      callType := CallType.video, startTime := 1, endTime := some 2,
      status := CallStatus.canceled }
    (by decide) rfl (by decide)).1

/-- Counterexample to claim C3: an end-call event on an accepted (active)
session stamps endTime but leaves the recorded status at accepted — the
status never becomes a terminal one, and the schema enum has no `ended`
value at all. -/
theorem C3_counterexample_end_keeps_accepted :
    (endCall (some "B") (some 0) 7
        ⟨[], [{ id := 0, callerId := "A", callerName := "Alice",
                callerAvatar := none, receiverId := "B", receiverName := "Bob",
                receiverAvatar := none, callType := CallType.audio,
                startTime := 4, endTime := none,
                status := CallStatus.accepted }], 1⟩).1.callLogs
      = [{ id := 0, callerId := "A", callerName := "Alice",
           callerAvatar := none, receiverId := "B", receiverName := "Bob",
           receiverAvatar := none, callType := CallType.audio,
           startTime := 4, endTime := some 7,
           status := CallStatus.accepted }]
    ∧ CallStatus.accepted ∉ specTerminalStatuses :=
  ⟨rfl, by decide⟩

/-- Claim C3 as amended: an end event referencing an accepted session stamps
its endTime with the end time, while the recorded status stays accepted —
the persisted schema has no `ended` state and the end-call handler performs
no status transition. -/
theorem C3_amended_end_stamps_endTime (st : ServerState) (tid : Option String)
    (i t : Nat) (l : CallLog) (hl : l ∈ st.callLogs) (hid : l.id = i)
    (_hact : l.status = CallStatus.accepted) :
    { l with endTime := some t } ∈ (endCall tid (some i) t st).1.callLogs
    ∧ ({ l with endTime := some t }).endTime = some t
    ∧ ({ l with endTime := some t }).status = l.status := by
  refine ⟨?_, rfl, rfl⟩
  unfold endCall findByIdAndUpdate
  exact List.mem_map.mpr ⟨l, hl, by rw [if_pos hid]⟩

/-- Witness for the amended C3 at a concrete input. -/
theorem C3_amended_end_stamps_endTime_witness :
    { id := 0, callerId := "A", callerName := "Alice", callerAvatar := none,
      receiverId := "B", receiverName := "Bob", receiverAvatar := none,
      callType := CallType.audio, startTime := 4, endTime := some 7,
      status := CallStatus.accepted : CallLog }
      ∈ (endCall (some "B") (some 0) 7
          ⟨[], [{ id := 0, callerId := "A", callerName := "Alice",
                  callerAvatar := none, receiverId := "B",
                  receiverName := "Bob", receiverAvatar := none,
                  callType := CallType.audio, startTime := 4, endTime := none,
                  status := CallStatus.accepted }], 1⟩).1.callLogs :=
  (C3_amended_end_stamps_endTime
    ⟨[], [{ id := 0, callerId := "A", callerName := "Alice",
            callerAvatar := none, receiverId := "B", receiverName := "Bob",
            receiverAvatar := none, callType := CallType.audio,
            startTime := 4, endTime := none,
            status := CallStatus.accepted }], 1⟩
    (some "B") 0 7
    { id := 0, callerId := "A", callerName := "Alice", callerAvatar := none,
      receiverId := "B", receiverName := "Bob", receiverAvatar := none,
      callType := CallType.audio, startTime := 4, endTime := none,
      status := CallStatus.accepted }
    (by decide) rfl rfl).1

/-- Counterexample to claim C4: registering the same user with two different
profiles produces identical roster broadcasts although the \x7buserId, profile\x7d
pair sets differ — so the broadcast cannot be the set of pairs; it carries
the userIds only. -/
theorem C4_counterexample_broadcast_drops_profiles :
    (userOnline "s1" "u1" ⟨"Alice", "a.png"⟩ initialState).2
      = (userOnline "s1" "u1" ⟨"Bob", "b.png"⟩ initialState).2
    ∧ rosterPairsSpec
        (userOnline "s1" "u1" ⟨"Alice", "a.png"⟩ initialState).1.onlineUsers
      ≠ rosterPairsSpec
        (userOnline "s1" "u1" ⟨"Bob", "b.png"⟩ initialState).1.onlineUsers :=
  ⟨rfl, by decide⟩

/-- Claim C4 as amended: after every user-online registration, and after
every disconnect that removes an entry, the single broadcast sent to all
connected parties is the list of userIds of all currently registered users
(profiles are not included in the broadcast). -/
theorem C4_amended_broadcast_is_key_list (sock uid : String) (prof : Profile)
    (st : ServerState) :
    (userOnline sock uid prof st).2
      = [Msg.broadcastOnline (regKeys (userOnline sock uid prof st).1.onlineUsers)]
    ∧ (∀ p, st.onlineUsers.find? (fun q => q.2.socketId = sock) = some p →
        (disconnect sock st).2
          = [Msg.broadcastOnline (regKeys (disconnect sock st).1.onlineUsers)]) := by
  constructor
  · rfl
  · intro p hf
    unfold disconnect
    rw [hf]
    rfl

/-- Witness for the amended C4 at concrete inputs: a registration and a
matching disconnect both broadcast exactly the remaining userIds. -/
theorem C4_amended_broadcast_is_key_list_witness :
    (userOnline "s1" "u1" ⟨"Alice", "a.png"⟩ initialState).2
      = [Msg.broadcastOnline
          (regKeys (userOnline "s1" "u1" ⟨"Alice", "a.png"⟩
            initialState).1.onlineUsers)]
    ∧ (disconnect "s1" ⟨[("u1", ⟨"s1", ⟨"Alice", "a.png"⟩⟩)], [], 0⟩).2
      = [Msg.broadcastOnline
          (regKeys (disconnect "s1"
            ⟨[("u1", ⟨"s1", ⟨"Alice", "a.png"⟩⟩)], [], 0⟩).1.onlineUsers)] :=
  ⟨(C4_amended_broadcast_is_key_list "s1" "u1" ⟨"Alice", "a.png"⟩
      initialState).1,
   (C4_amended_broadcast_is_key_list "s1" "u1" ⟨"Alice", "a.png"⟩
      ⟨[("u1", ⟨"s1", ⟨"Alice", "a.png"⟩⟩)], [], 0⟩).2
     ("u1", ⟨"s1", ⟨"Alice", "a.png"⟩⟩) (by decide)⟩

/-- Counterexample to claim C9: a call-user event lacking the caller object,
whose named callee exists in the user store, makes the handler dereference
`caller.id` and throw a TypeError instead of discarding the event. -/
theorem C9_counterexample_missing_caller_throws :
    callUser [⟨"B", ["A"]⟩] none "B" CallType.audio 3 initialState
      = Except.error "TypeError" :=
  rfl

/-- Claim C9 as amended: the handlers are total on payloads that carry the
fields they dereference — a call-user event that does carry a caller object
always returns without throwing, and lifecycle events lacking a sessionId
leave the server state unchanged — but a call-user event lacking the caller
object throws (see the counterexample) rather than being discarded. -/
theorem C9_amended_totality_on_wellformed :
    (∀ (users : List UserRec) (c : Caller) (rid : String) (ct : CallType)
        (t : Nat) (st : ServerState),
      ∃ out, callUser users (some c) rid ct t st = Except.ok out)
    ∧ (∀ (cid : Option String) (t : Nat) (st : ServerState),
        (callAccepted cid none t st).1 = st)
    ∧ (∀ (cid : Option String) (t : Nat) (st : ServerState),
        (callRejected cid none t st).1 = st)
    ∧ (∀ (rid : Option String) (t : Nat) (st : ServerState),
        (cancelCall rid none t st).1 = st)
    ∧ (∀ (tid : Option String) (t : Nat) (st : ServerState),
        (endCall tid none t st).1 = st) := by
  refine ⟨?_, fun _ _ _ => rfl, fun _ _ _ => rfl, fun _ _ _ => rfl,
    fun _ _ _ => rfl⟩
  intro users c rid ct t st
  unfold callUser
  cases hf : users.find? (fun u => u.clerkId = rid) with
  | none => exact ⟨_, rfl⟩
  | some ru =>
      dsimp only
      by_cases hfr : ru.friends.contains c.id = true
      · rw [if_neg (not_not_intro hfr)]
        cases hg : mapGet st.onlineUsers rid with
        | some rd => exact ⟨_, rfl⟩
        | none => exact ⟨_, rfl⟩
      · rw [if_pos hfr]
        exact ⟨_, rfl⟩

end WaveNet
